import Mathlib

/-!
Shallow embedding of the eligibility and proration engine of the
Fiscale-Attesten tax-certificate generator (src/main.py, src/utils.py,
src/data_classes.py), together with proofs settling the specification
claims about it.

Python floats are idealised as exact rationals; Python `round(x, 2)` is
modelled as round-half-to-even at two decimals over exact rationals.
Python `datetime.date` is modelled by an explicit proleptic-Gregorian
calendar that follows the ordinal conversion algorithms of the CPython
standard library (`date.toordinal` / `_ord2ymd`), so that date
subtraction and `timedelta` addition have the library semantics.
Logging is a no-op for all values computed here and is not modelled.
-/

deriving instance DecidableEq for Except

namespace Fiscale

/-! ## Calendar: model of Python `datetime.date` -/

structure Date where
  year : Int
  month : Int
  day : Int
deriving DecidableEq, Repr

def isLeap (y : Int) : Bool :=
  (y % 4 == 0 && y % 100 != 0) || y % 400 == 0

/-- Month lengths of a non-leap year (CPython `_DAYS_IN_MONTH`). -/
def daysInMonthNL (m : Int) : Int :=
  if m = 2 then 28
  else if m = 4 ∨ m = 6 ∨ m = 9 ∨ m = 11 then 30
  else 31

def daysInMonth (y m : Int) : Int :=
  daysInMonthNL m + (if m = 2 ∧ isLeap y then 1 else 0)

def validDate (d : Date) : Bool :=
  1 ≤ d.year && d.year ≤ 9999 && 1 ≤ d.month && d.month ≤ 12 &&
    1 ≤ d.day && d.day ≤ daysInMonth d.year d.month

/-- Model of the `datetime.date` constructor: `date(y, m, d)` raises
`ValueError` (here `none`) on an out-of-range field. -/
def mkDate? (y m d : Int) : Option Date :=
  if validDate ⟨y, m, d⟩ then some ⟨y, m, d⟩ else none

/-- Days before January 1st of `year`, ordinal epoch 0001-01-01
(CPython `_days_before_year`).  Lean integer division agrees with the
Python floor division used there. -/
def daysBeforeYear (year : Int) : Int :=
  let y := year - 1
  y * 365 + y / 4 - y / 100 + y / 400

/-- Cumulative day count before month `m` in a non-leap year
(CPython `_DAYS_BEFORE_MONTH`). -/
def daysBeforeMonthNL (m : Int) : Int :=
  if m ≤ 1 then 0 else if m = 2 then 31 else if m = 3 then 59
  else if m = 4 then 90 else if m = 5 then 120 else if m = 6 then 151
  else if m = 7 then 181 else if m = 8 then 212 else if m = 9 then 243
  else if m = 10 then 273 else if m = 11 then 304 else 334

/-- CPython `date.toordinal`: the day number of a date, with
0001-01-01 mapped to 1. -/
def toordinal (d : Date) : Int :=
  daysBeforeYear d.year + daysBeforeMonthNL d.month +
    (if 2 < d.month ∧ isLeap d.year then 1 else 0) + d.day

/-- CPython `_ord2ymd`: date of a day number, inverse of `toordinal`
on valid ordinals.  All divisions happen on non-negative operands for
valid ordinals, so the division convention is immaterial there. -/
def ord2ymd (nIn : Int) : Date :=
  let n0 := nIn - 1
  let n400 := n0 / 146097
  let r400 := n0 % 146097
  let n100 := r400 / 36524
  let r100 := r400 % 36524
  let n4 := r100 / 1461
  let r4 := r100 % 1461
  let n1 := r4 / 365
  let r1 := r4 % 365
  let year := n400 * 400 + 1 + n100 * 100 + n4 * 4 + n1
  if n1 = 4 ∨ n100 = 4 then ⟨year - 1, 12, 31⟩
  else
    let leap := n1 = 3 ∧ (n4 ≠ 24 ∨ n100 = 3)
    let month := (r1 + 50) / 32
    let preceding := daysBeforeMonthNL month + (if 2 < month ∧ leap then 1 else 0)
    if r1 < preceding then
      let month2 := month - 1
      let preceding2 :=
        preceding - (daysInMonthNL month2 + (if month2 = 2 ∧ leap then 1 else 0))
      ⟨year, month2, r1 - preceding2 + 1⟩
    else
      ⟨year, month, r1 - preceding + 1⟩

/-- Date plus `timedelta(k)` in CPython: ordinal arithmetic. -/
def pyAddDays (d : Date) (k : Int) : Date :=
  ord2ymd (toordinal d + k)

/-- Python `(a - b).days` for two dates. -/
def dateSubDays (a b : Date) : Int :=
  toordinal a - toordinal b

/-! ## Rounding: model of Python `round(x, 2)` -/

/-- Round to the nearest integer, ties to even (the Python `round`
rule, idealised over exact rationals). -/
def roundHalfToEven (x : ℚ) : ℤ :=
  let f := ⌊x⌋
  let r := x - f
  if r < 1 / 2 then f
  else if 1 / 2 < r then f + 1
  else if 2 ∣ f then f else f + 1

/-- Python `round(x, 2)`. -/
def pyRound2 (x : ℚ) : ℚ :=
  (roundHalfToEven (100 * x) : ℚ) / 100

/-! ## Data classes (src/data_classes.py) -/

/-- Model of `Member` (the `Person` base supplies the two name fields; the
address plays no role in the engine and is omitted). -/
structure Member where
  last_name : String
  first_name : String
  date_of_birth : Date
  registration_year : Int
  discount : Bool
deriving DecidableEq, Repr

structure Activity where
  start_date : Date
  end_date : Date
  number_of_days : Int
  price_per_day : ℚ
  total_price : ℚ
deriving DecidableEq, Repr

/-- Model of `Activity.__init__`: derives `number_of_days` and `price_per_day`
from the dates and the total price.  The source logs a warning (but
proceeds) when `start_date > end_date` or the price is negative;
a zero day count would raise `ZeroDivisionError` in Python, while the
rational model yields 0 there (no claim touches that corner). -/
def Activity.make (s e : Date) (p : ℚ) : Activity :=
  let n := dateSubDays e s + 1
  { start_date := s, end_date := e, number_of_days := n,
    price_per_day := pyRound2 (p / (n : ℚ)), total_price := p }

/-- Model of `Activity.recalculate_price_and_days`: recomputes the day count
from the (possibly changed) dates and rebases the total price as
`price_per_day * number_of_days`. -/
def Activity.recalculate_price_and_days (a : Activity) : Activity :=
  let n := dateSubDays a.end_date a.start_date + 1
  { a with number_of_days := n, total_price := a.price_per_day * (n : ℚ) }

/-! ## Age-group table builder and resolver -/

/-- The per-group value of the `age_group_data` dictionary.  The
`first_registration_year` key is absent (`none`) before the builder
has processed the group.  `nr_of_years` is required by the
configuration schema, hence a plain field. -/
structure GroupInfo where
  nr_of_years : Int
  first_registration_year : Option Int
deriving DecidableEq, Repr

/-- An insertion-ordered dictionary of age-group name to group info. -/
abbrev AgeGroupData := List (String × GroupInfo)

/-- Return value of `generate_age_group_data` (src/main.py): walks the
groups in declaration order, assigns the running anchor year as
`first_registration_year` and decrements the anchor by `nr_of_years`.
The `ValueError` for a non-positive `nr_of_years` is the `.error`
branch; the `KeyError` for a missing `nr_of_years` key is ruled out by
the typed record. -/
def generate_age_group_data : AgeGroupData → Int → Except String AgeGroupData
  | [], _ => .ok []
  | (g, info) :: rest, anchor =>
    if info.nr_of_years ≤ 0 then
      .error ("nr_of_years must be a positive integer for age group: " ++ g)
    else
      match generate_age_group_data rest (anchor - info.nr_of_years) with
      | .error e => .error e
      | .ok tail =>
        .ok ((g, { info with first_registration_year := some anchor }) :: tail)

/-- The state of the caller-supplied `age_group_data` dictionary after
the call: the source assigns `first_registration_year` into the
dictionary in place while iterating, so every group before a failing
one is already updated, and on success the whole input has been
augmented (the function then returns that same dictionary). -/
def generate_age_group_data_post : AgeGroupData → Int → AgeGroupData
  | [], _ => []
  | (g, info) :: rest, anchor =>
    if info.nr_of_years ≤ 0 then (g, info) :: rest
    else
      (g, { info with first_registration_year := some anchor }) ::
        generate_age_group_data_post rest (anchor - info.nr_of_years)

/-- One step of the loop of `determine_age_group` (src/utils.py) over
`reversed(age_group_data.keys())`: reading
`group_info["first_registration_year"]` raises `KeyError` (here
`.error`) when the key is absent. -/
def dag_scan : AgeGroupData → Int → Except Unit (Option String)
  | [], _ => .ok none
  | (g, info) :: rest, ry =>
    match info.first_registration_year with
    | none => .error ()
    | some fry => if ry ≤ fry then .ok (some g) else dag_scan rest ry

/-- Model of `determine_age_group` (src/utils.py): scans the groups in reverse
insertion order and returns the first whose `first_registration_year`
is at least the registration year, `none` when no group qualifies. -/
def determine_age_group (t : AgeGroupData) (ry : Int) : Except Unit (Option String) :=
  dag_scan t.reverse ry

/-- Model of `is_member_too_old` (src/utils.py).  The Python tuple comparison
`(m1, d1) < (m2, d2)` is lexicographic. -/
def is_member_too_old (date_of_birth reference_date : Date) (max_age : Int) : Bool :=
  let age := reference_date.year - date_of_birth.year -
    (if reference_date.month < date_of_birth.month ∨
        (reference_date.month = date_of_birth.month ∧
          reference_date.day < date_of_birth.day)
      then 1 else 0)
  max_age ≤ age

/-! ## The activity adapter (src/main.py, adapt_activity_data_to_member) -/

/-- Result of `adapt_activity_data_to_member`.  Each constructor
carries the final state of the `activity` argument, which the source
mutates in place:
`eligible a` means the function returned the activity, now equal to `a`;
`ineligible a` means it returned `None`, leaving the argument as `a`;
`err a` means a `ValueError` propagated, leaving the argument as `a`. -/
inductive AdaptResult where
  | eligible : Activity → AdaptResult
  | ineligible : Activity → AdaptResult
  | err : Activity → AdaptResult
deriving DecidableEq, Repr

/-- The end-date age-out step of `adapt_activity_data_to_member`
(src/main.py lines 182-191; the identical block also appears in the
legacy copy in src/utils.py): when the member is too old at the end
date, truncate the end date to
`date(end_date.year, birth.month, birth.day - 1)` and recalculate.
A failing date construction is the `ValueError` path. -/
def adaptEndCheck (a : Activity) (member : Member) (max_age : Int) : AdaptResult :=
  if is_member_too_old member.date_of_birth a.end_date max_age then
    match mkDate? a.end_date.year member.date_of_birth.month
        (member.date_of_birth.day - 1) with
    | none => .err a
    | some d => .eligible (Activity.recalculate_price_and_days { a with end_date := d })
  else
    .eligible a

/-- Model of `adapt_activity_data_to_member` (src/main.py): start-date age
check, discount, precamp shift with re-check and recalculation, then
the end-date age-out step. -/
def adapt_activity_data_to_member (activity : Activity) (member : Member)
    (full_camp : Bool) (max_age : Int) : AdaptResult :=
  if is_member_too_old member.date_of_birth activity.start_date max_age then
    .ineligible activity
  else
    let a1 := if member.discount
      then { activity with total_price := pyRound2 (activity.total_price / 3) }
      else activity
    if full_camp then
      adaptEndCheck a1 member max_age
    else
      let a2 := { a1 with start_date := pyAddDays a1.start_date 2 }
      if is_member_too_old member.date_of_birth a2.start_date max_age then
        .ineligible a2
      else
        adaptEndCheck (Activity.recalculate_price_and_days a2) member max_age

/-! ## The aggregator slice deciding `full_camp`
(src/main.py, generate_activities_for_member) -/

/-- ASCII lower-casing, the effect of Python `str.lower` on the ASCII
activity names used here. -/
def pyLower (s : String) : String :=
  String.mk (s.toList.map Char.toLower)

def startsList : List Char → List Char → Bool
  | [], _ => true
  | _ :: _, [] => false
  | a :: as, b :: bs => a == b && startsList as bs

def containsList (needle : List Char) : List Char → Bool
  | [] => needle.isEmpty
  | c :: cs => startsList needle (c :: cs) || containsList needle cs

/-- Python substring containment `needle in hay`. -/
def strContains (needle hay : String) : Bool :=
  containsList needle.toList hay.toList

/-- The year-window resolution step of the loop body of
`generate_activities_for_member` (src/main.py lines 232-241): the
activity name is matched against the `"{year-1}/{year}"` label first,
then against `"{year}/{year+1}"`; the matching window selects the
registration year handed to `determine_age_group`.  `.ok none` stands
for the falsy `age_group` (the initial empty string when no window
label occurs in the name, or a `None` returned by the resolver). -/
def resolve_activity_age_group (name : String) (calendar_year : Int)
    (age_group_data : AgeGroupData) (registration_year : Int) :
    Except Unit (Option String) :=
  if strContains (toString (calendar_year - 1) ++ "/" ++ toString calendar_year)
      name then
    determine_age_group age_group_data registration_year
  else if strContains (toString calendar_year ++ "/" ++ toString (calendar_year + 1))
      name then
    determine_age_group age_group_data (registration_year - 1)
  else
    .ok none

/-- The body of the loop of `generate_activities_for_member`
(src/main.py lines 231-256) up to the adapter call: for one attended
activity name it computes the resolved age group and the `full_camp`
flag that are passed to `adapt_activity_data_to_member`.  `.error`
covers both the `ValueError` raised when no age group was determined
and a propagated `KeyError` from `determine_age_group`.  The Python
`and` chain short-circuits, so the second resolver call only happens
when the name contains "kamp" and the group is one of the two senior
groups; comparing a string to a `None` resolver result is simply
unequal there. -/
def process_activity_name (name : String) (calendar_year : Int)
    (age_group_data : AgeGroupData) (registration_year : Int) :
    Except Unit (String × Bool) :=
  match resolve_activity_age_group name calendar_year age_group_data
      registration_year with
  | .error e => .error e
  | .ok none => .error ()
  | .ok (some ag) =>
    if strContains "kamp" (pyLower name) && (ag == "jonggivers" || ag == "givers") then
      match determine_age_group age_group_data (registration_year - 1) with
      | .error _ => .error ()
      | .ok r => .ok (ag, !(r == some ag))
    else
      .ok (ag, true)

/-! ## Concrete inputs used by witnesses and counterexamples -/

/-- The age-group table of Scenario 4: groups declared youngest-first
(A, B, C) with the stated first registration years. -/
def tableC2 : AgeGroupData :=
  [("A", ⟨3, some 2015⟩), ("B", ⟨3, some 2012⟩), ("C", ⟨3, some 2009⟩)]

def memC7 : Member := ⟨"lid", "an", ⟨2005, 1, 1⟩, 2012, false⟩

def actC7 : Activity := Activity.make ⟨2024, 7, 1⟩ ⟨2024, 7, 5⟩ 50

/-- A raw age-group configuration (no `first_registration_year` yet),
youngest-first, as read from the configuration file. -/
def cfgC4 : AgeGroupData :=
  [("kapoenen", ⟨3, none⟩), ("wolven", ⟨4, none⟩), ("jonggivers", ⟨3, none⟩)]

/-! ## Claim C2 -/

/-- C2, counterexample: on the Scenario 4 table, `determine_age_group`
applied to registration year 2013 does not return group B as claimed. -/
theorem c2_counterexample :
    determine_age_group tableC2 2013 ≠ Except.ok (some "B") := by decide

/-- C2 (amended): on the Scenario 4 table, `determine_age_group`
applied to registration year 2013 returns group A, the youngest group:
scanning C, B, A in reverse declaration order, A is the only group
whose `first_registration_year` (2015) is ≥ 2013. -/
theorem c2_resolver_returns_A :
    determine_age_group tableC2 2013 = Except.ok (some "A") := by decide

/-! ## Claim C7 -/

/-- C7: when the member is already at or above `max_age` at the start
date (age computed by the calendar-year rule of `is_member_too_old`),
the adapter returns the null result and the activity argument is left
in its original state: no field is mutated. -/
theorem c7_ineligible_no_mutation (act : Activity) (mem : Member)
    (full_camp : Bool) (max_age : Int)
    (h : is_member_too_old mem.date_of_birth act.start_date max_age = true) :
    adapt_activity_data_to_member act mem full_camp max_age = .ineligible act := by
  simp [adapt_activity_data_to_member, h]

theorem c7_witness :
    is_member_too_old memC7.date_of_birth actC7.start_date 14 = true ∧
      adapt_activity_data_to_member actC7 memC7 false 14 = .ineligible actC7 :=
  ⟨by decide, c7_ineligible_no_mutation actC7 memC7 false 14 (by decide)⟩

/-! ## Claims C8 and C4: the table builder -/

/-- On a configuration whose `nr_of_years` are all positive the builder
succeeds, and the structure it returns is exactly the in-place-updated
state of its input dictionary. -/
theorem generate_age_group_data_eq_post (l : AgeGroupData) (anchor : Int)
    (h : ∀ p ∈ l, 0 < p.2.nr_of_years) :
    generate_age_group_data l anchor =
      .ok (generate_age_group_data_post l anchor) := by
  induction l generalizing anchor with
  | nil => rfl
  | cons hd tl ih =>
    obtain ⟨g, info⟩ := hd
    have hpos : 0 < info.nr_of_years := h (g, info) (List.mem_cons_self _ _)
    have hco : ¬ info.nr_of_years ≤ 0 := by omega
    simp only [generate_age_group_data, generate_age_group_data_post, if_neg hco,
      ih _ (fun p hp => h p (List.mem_cons_of_mem _ hp))]

/-- The `k`-th entry of the updated dictionary: name and `nr_of_years`
unchanged, `first_registration_year` set to the anchor minus the
`nr_of_years` of all earlier groups. -/
theorem generate_age_group_data_post_getElem (l : AgeGroupData) (anchor : Int)
    (k : Nat) (h : ∀ p ∈ l, 0 < p.2.nr_of_years) :
    (generate_age_group_data_post l anchor)[k]? =
      (l[k]?).map (fun p => (p.1,
        { p.2 with
            first_registration_year :=
              some (anchor - ((l.take k).map fun q => q.2.nr_of_years).sum) })) := by
  induction l generalizing anchor k with
  | nil => simp [generate_age_group_data_post]
  | cons hd tl ih =>
    obtain ⟨g, info⟩ := hd
    have hpos : 0 < info.nr_of_years := h (g, info) (List.mem_cons_self _ _)
    have hco : ¬ info.nr_of_years ≤ 0 := by omega
    cases k with
    | zero =>
      simp [generate_age_group_data_post, if_neg hco]
    | succ k =>
      have harith : anchor -
          (info.nr_of_years + ((tl.take k).map fun q => q.2.nr_of_years).sum) =
          anchor - info.nr_of_years -
            ((tl.take k).map fun q => q.2.nr_of_years).sum := by ring
      simp only [generate_age_group_data_post, if_neg hco, List.getElem?_cons_succ,
        List.take_succ_cons, List.map_cons, List.sum_cons, harith]
      exact ih (anchor - info.nr_of_years) k
        (fun p hp => h p (List.mem_cons_of_mem _ hp))

/-- C4: for every configuration with positive `nr_of_years` (in
youngest-first declaration order) and every anchor year, the builder
succeeds and assigns to the `k`-th group a `first_registration_year`
equal to the anchor minus the sum of the `nr_of_years` of all groups
declared before it; for `k = 0` the sum is empty, so the first group
receives the anchor itself. -/
theorem c4_builder_formula (l : AgeGroupData) (anchor : Int) (k : Nat)
    (h : ∀ p ∈ l, 0 < p.2.nr_of_years) :
    generate_age_group_data l anchor =
        .ok (generate_age_group_data_post l anchor) ∧
      (generate_age_group_data_post l anchor)[k]? =
        (l[k]?).map (fun p => (p.1,
          { p.2 with
              first_registration_year :=
                some (anchor - ((l.take k).map fun q => q.2.nr_of_years).sum) })) :=
  ⟨generate_age_group_data_eq_post l anchor h,
    generate_age_group_data_post_getElem l anchor k h⟩

theorem c4_witness :
    (∀ p ∈ cfgC4, 0 < p.2.nr_of_years) ∧
      generate_age_group_data cfgC4 2021 =
        .ok (generate_age_group_data_post cfgC4 2021) ∧
      (generate_age_group_data_post cfgC4 2021)[1]? =
        some ("wolven", ⟨4, some 2018⟩) := by
  refine ⟨by decide, (c4_builder_formula cfgC4 2021 1 (by decide)).1, ?_⟩
  have h2 := (c4_builder_formula cfgC4 2021 1 (by decide)).2
  simpa using h2

/-- C8, counterexample: the builder does not leave its input mapping
unchanged; already on a one-step configuration the post-call state of
the caller dictionary differs from the value that was passed in. -/
theorem c8_counterexample :
    generate_age_group_data_post cfgC4 2021 ≠ cfgC4 := by decide

/-- C8 (amended): `generate_age_group_data` has no side effect other
than mutating its input mapping in place: it augments each entry of
the caller dictionary with its `first_registration_year` and returns
that same, now augmented, structure rather than a fresh copy. -/
theorem c8_builder_mutates_in_place (l : AgeGroupData) (anchor : Int)
    (h : ∀ p ∈ l, 0 < p.2.nr_of_years) :
    generate_age_group_data l anchor =
      .ok (generate_age_group_data_post l anchor) :=
  generate_age_group_data_eq_post l anchor h

theorem c8_witness :
    (∀ p ∈ cfgC4, 0 < p.2.nr_of_years) ∧
      generate_age_group_data cfgC4 2021 =
        .ok (generate_age_group_data_post cfgC4 2021) :=
  ⟨by decide, c8_builder_mutates_in_place cfgC4 2021 (by decide)⟩

/-! ## Claim C5 -/

/-- Modelled from the resolver algorithm as the specification words it,
for comparison with the implementation: the first group in reverse
declaration order whose `first_registration_year` is present and at
least the registration year. -/
def determine_age_group_find (t : AgeGroupData) (ry : Int) : Option String :=
  (t.reverse.find? fun p =>
    p.2.first_registration_year.any fun fry => ry ≤ fry).map Prod.fst

theorem dag_scan_eq_find (l : AgeGroupData) (ry : Int)
    (h : ∀ p ∈ l, p.2.first_registration_year.isSome = true) :
    dag_scan l ry =
      .ok ((l.find? fun p =>
        p.2.first_registration_year.any fun fry => ry ≤ fry).map Prod.fst) := by
  induction l with
  | nil => rfl
  | cons hd tl ih =>
    obtain ⟨g, info⟩ := hd
    obtain ⟨fry, hfry⟩ :=
      Option.isSome_iff_exists.mp (h (g, info) (List.mem_cons_self _ _))
    have hfry' : info.first_registration_year = some fry := hfry
    by_cases hle : ry ≤ fry
    · simp [dag_scan, hfry', hle, List.find?_cons]
    · simp [dag_scan, hfry', hle, List.find?_cons,
        ih (fun p hp => h p (List.mem_cons_of_mem _ hp))]

/-- C5: on a built table (every group carries its
`first_registration_year`), `determine_age_group` scans the groups in
reverse declaration order (oldest first) and returns the first group
whose `first_registration_year` is ≥ the registration year; when no
group qualifies it returns the `none` sentinel inside a normal result,
raising no exception. -/
theorem c5_resolver_reverse_scan (t : AgeGroupData) (ry : Int)
    (h : ∀ p ∈ t, p.2.first_registration_year.isSome = true) :
    determine_age_group t ry = .ok (determine_age_group_find t ry) := by
  have h' : ∀ p ∈ t.reverse, p.2.first_registration_year.isSome = true := by
    intro p hp
    exact h p (List.mem_reverse.mp hp)
  exact dag_scan_eq_find t.reverse ry h'

theorem c5_witness :
    (∀ p ∈ tableC2, p.2.first_registration_year.isSome = true) ∧
      determine_age_group tableC2 2016 = .ok (determine_age_group_find tableC2 2016) ∧
      determine_age_group_find tableC2 2016 = none :=
  ⟨by decide, c5_resolver_reverse_scan tableC2 2016 (by decide), by decide⟩

/-! ## Claim C9 -/

theorem dag_scan_find_pos {l : AgeGroupData} {r : Int} {g : String}
    (h : dag_scan l r = .ok (some g)) :
    ∃ j : Fin l.length, (l.get j).1 = g := by
  induction l with
  | nil => simp [dag_scan] at h
  | cons hd tl ih =>
    obtain ⟨gh, info⟩ := hd
    cases hfry : info.first_registration_year with
    | none => simp [dag_scan, hfry] at h
    | some fry =>
      simp only [dag_scan, hfry] at h
      by_cases hle : r ≤ fry
      · rw [if_pos hle] at h
        obtain rfl : gh = g := by simpa using h
        exact ⟨⟨0, by simp⟩, rfl⟩
      · rw [if_neg hle] at h
        obtain ⟨j, hj⟩ := ih h
        refine ⟨⟨j.val + 1, by simp⟩, ?_⟩
        simpa using hj

theorem dag_scan_mono {l : AgeGroupData} {r1 r2 : Int} {g1 g2 : String}
    (hlt : r1 < r2)
    (h1 : dag_scan l r1 = .ok (some g1))
    (h2 : dag_scan l r2 = .ok (some g2)) :
    ∃ j1 j2 : Fin l.length,
      (l.get j1).1 = g1 ∧ (l.get j2).1 = g2 ∧ j1.val ≤ j2.val := by
  induction l with
  | nil => simp [dag_scan] at h1
  | cons hd tl ih =>
    obtain ⟨gh, info⟩ := hd
    cases hfry : info.first_registration_year with
    | none => simp [dag_scan, hfry] at h1
    | some fry =>
      simp only [dag_scan, hfry] at h1 h2
      by_cases hr2 : r2 ≤ fry
      · have hr1 : r1 ≤ fry := le_of_lt (lt_of_lt_of_le hlt hr2)
        rw [if_pos hr1] at h1
        rw [if_pos hr2] at h2
        obtain rfl : gh = g1 := by simpa using h1
        obtain rfl : gh = g2 := by simpa using h2
        exact ⟨⟨0, by simp⟩, ⟨0, by simp⟩, rfl, rfl, le_refl _⟩
      · rw [if_neg hr2] at h2
        by_cases hr1 : r1 ≤ fry
        · rw [if_pos hr1] at h1
          obtain rfl : gh = g1 := by simpa using h1
          obtain ⟨j2, hj2⟩ := dag_scan_find_pos h2
          refine ⟨⟨0, by simp⟩, ⟨j2.val + 1, by simp⟩, rfl, ?_,
            by simp⟩
          simpa using hj2
        · rw [if_neg hr1] at h1
          obtain ⟨j1, j2, hj1, hj2, hle⟩ := ih h1 h2
          refine ⟨⟨j1.val + 1, by simp⟩,
            ⟨j2.val + 1, by simp⟩, ?_, ?_, by simpa using hle⟩
          · simpa using hj1
          · simpa using hj2

/-- C9: the resolver is monotone with respect to declaration order.
For a fixed table and registration years r1 < r2 that both resolve to
a group, the group found for r1 occupies a declaration position at
least as late (at least as old, the table being youngest-first) as the
group found for r2 — it is never strictly younger, i.e. never strictly
earlier in the declaration order. -/
theorem c9_resolver_monotone (t : AgeGroupData) (r1 r2 : Int) (g1 g2 : String)
    (hlt : r1 < r2)
    (h1 : determine_age_group t r1 = .ok (some g1))
    (h2 : determine_age_group t r2 = .ok (some g2)) :
    ∃ i1 i2 : Fin t.length,
      (t.get i1).1 = g1 ∧ (t.get i2).1 = g2 ∧ i2.val ≤ i1.val := by
  obtain ⟨j1, j2, hj1, hj2, hle⟩ := dag_scan_mono hlt h1 h2
  have hq1 : j1.val < t.length := by simpa using j1.isLt
  have hq2 : j2.val < t.length := by simpa using j2.isLt
  have e1 : t.reverse.get j1 = t.get ⟨t.length - 1 - j1.val, by omega⟩ := by
    rw [List.get_eq_getElem, List.get_eq_getElem]
    exact List.getElem_reverse ..
  have e2 : t.reverse.get j2 = t.get ⟨t.length - 1 - j2.val, by omega⟩ := by
    rw [List.get_eq_getElem, List.get_eq_getElem]
    exact List.getElem_reverse ..
  refine ⟨⟨t.length - 1 - j1.val, by omega⟩, ⟨t.length - 1 - j2.val, by omega⟩,
    ?_, ?_, show t.length - 1 - j2.val ≤ t.length - 1 - j1.val from by omega⟩
  · rw [← e1]
    exact hj1
  · rw [← e2]
    exact hj2

theorem c9_witness :
    (2011 : Int) < 2014 ∧
      determine_age_group tableC2 2011 = .ok (some "B") ∧
      determine_age_group tableC2 2014 = .ok (some "A") ∧
      ∃ i1 i2 : Fin tableC2.length,
        (tableC2.get i1).1 = "B" ∧ (tableC2.get i2).1 = "A" ∧ i2.val ≤ i1.val :=
  ⟨by decide, by decide, by decide,
    c9_resolver_monotone tableC2 2011 2014 "B" "A" (by decide) (by decide)
      (by decide)⟩

/-! ## Claim C1 -/

def memC1 : Member := ⟨"lid", "bo", ⟨2010, 1, 15⟩, 2015, true⟩

/-- A 4-day activity priced 40.0: `price_per_day` is the exact 10.0. -/
def actC1 : Activity := Activity.make ⟨2024, 7, 1⟩ ⟨2024, 7, 4⟩ 40

/-- The final state of `actC1` after adaptation for `memC1` with
`full_camp = false`. -/
def actC1adapted : Activity := ⟨⟨2024, 7, 3⟩, ⟨2024, 7, 4⟩, 2, 10, 20⟩

theorem actC1_eval : actC1 = ⟨⟨2024, 7, 1⟩, ⟨2024, 7, 4⟩, 4, 10, 40⟩ := by
  have hn : dateSubDays ⟨2024, 7, 4⟩ ⟨2024, 7, 1⟩ + 1 = 4 := by decide
  have hf : (⌊(100 : ℚ) * (40 / ((4 : ℤ) : ℚ))⌋ : ℤ) = 1000 := by
    norm_num [Int.floor_eq_iff]
  simp only [actC1, Activity.make, hn, pyRound2, roundHalfToEven]
  norm_num [hf]

theorem pyRound2_40_3 : pyRound2 ((40 : ℚ) / 3) = 1333 / 100 := by
  have hf : (⌊(100 : ℚ) * (40 / 3)⌋ : ℤ) = 1333 := by norm_num [Int.floor_eq_iff]
  rw [pyRound2, roundHalfToEven]
  norm_num [hf]

/-- C1, counterexample: a discounted, fully eligible member who skips
the precamp.  The discount division is applied first, but the
subsequent `recalculate_price_and_days` overwrites `total_price` with
`price_per_day * number_of_days` = 10.0 * 2 = 20.0, so the returned
total is not `round(40 / 3.0, 2) = 13.33`: the discounted price does
not survive recalculation. -/
theorem c1_counterexample :
    adapt_activity_data_to_member actC1 memC1 false 18 = .eligible actC1adapted ∧
      actC1adapted.total_price ≠ pyRound2 (actC1.total_price / 3) := by
  constructor
  · have hb1 : is_member_too_old memC1.date_of_birth (⟨2024, 7, 1⟩ : Date) 18 = false := by
      decide
    have hb2 : is_member_too_old memC1.date_of_birth (⟨2024, 7, 3⟩ : Date) 18 = false := by
      decide
    have hb3 : is_member_too_old memC1.date_of_birth (⟨2024, 7, 4⟩ : Date) 18 = false := by
      decide
    have hsh : pyAddDays ⟨2024, 7, 1⟩ 2 = ⟨2024, 7, 3⟩ := by decide
    have hds : dateSubDays ⟨2024, 7, 4⟩ ⟨2024, 7, 3⟩ + 1 = 2 := by decide
    have hdisc : memC1.discount = true := rfl
    rw [actC1_eval]
    simp only [adapt_activity_data_to_member, Activity.recalculate_price_and_days,
      adaptEndCheck, hdisc, if_true, hb1, hb2, hb3, hsh, hds, actC1adapted]
    norm_num
  · rw [actC1_eval, actC1adapted]
    norm_num [pyRound2_40_3]

/-- C1 (amended): the discount rule — `total_price` becomes
`round(total_price / 3.0, 2)` for a member with `discount` who is
eligible at the start date — holds, and the discounted figure is the
returned total precisely when no recalculation follows: with
`full_camp = true` and no end-date age-out the adapter returns the
activity unchanged except for the discounted `total_price`.  When
partial attendance or an end-date age-out triggers
`recalculate_price_and_days` afterwards, `total_price` is rebased to
`price_per_day * number_of_days` and the discounted figure is
discarded (see the counterexample). -/
theorem c1_discount_rule (act : Activity) (mem : Member) (max_age : Int)
    (hd : mem.discount = true)
    (h1 : is_member_too_old mem.date_of_birth act.start_date max_age = false)
    (h2 : is_member_too_old mem.date_of_birth act.end_date max_age = false) :
    adapt_activity_data_to_member act mem true max_age =
      .eligible { act with total_price := pyRound2 (act.total_price / 3) } := by
  simp [adapt_activity_data_to_member, adaptEndCheck, h1, h2, hd]

theorem c1_witness :
    memC1.discount = true ∧
      is_member_too_old memC1.date_of_birth actC1.start_date 18 = false ∧
      is_member_too_old memC1.date_of_birth actC1.end_date 18 = false ∧
      adapt_activity_data_to_member actC1 memC1 true 18 =
        .eligible { actC1 with total_price := pyRound2 (actC1.total_price / 3) } :=
  ⟨rfl, by decide, by decide,
    c1_discount_rule actC1 memC1 18 rfl (by decide) (by decide)⟩

/-! ## Claim C3 -/

def memC3 : Member := ⟨"lid", "dree", ⟨2010, 7, 1⟩, 2016, false⟩

def actC3 : Activity := Activity.make ⟨2024, 6, 20⟩ ⟨2024, 7, 10⟩ 100

/-- C3: the end-date truncation fails for a birthday on the first day
of a month.  `memC3` (born 2010-07-01) is eligible at the start date
and reaches age 14 before the end date, so per the claim the end date
should become the day before the birthday (2024-06-30) with the
activity recalculated and returned.  Instead the source computes
`date(end.year, 7, 1 - 1)`, i.e. `date(2024, 7, 0)`, which is invalid:
the adapter raises `ValueError` and no truncated activity is
produced. -/
theorem c3_day_one_birthday_raises :
    is_member_too_old memC3.date_of_birth actC3.start_date 14 = false ∧
      is_member_too_old memC3.date_of_birth actC3.end_date 14 = true ∧
      mkDate? actC3.end_date.year memC3.date_of_birth.month
        (memC3.date_of_birth.day - 1) = none ∧
      adapt_activity_data_to_member actC3 memC3 true 14 = .err actC3 := by
  have hb1 : is_member_too_old memC3.date_of_birth actC3.start_date 14 = false := by
    decide
  have hb2 : is_member_too_old memC3.date_of_birth actC3.end_date 14 = true := by
    decide
  have hmk : mkDate? actC3.end_date.year memC3.date_of_birth.month
      (memC3.date_of_birth.day - 1) = none := by decide
  have hdisc : memC3.discount = false := rfl
  refine ⟨hb1, hb2, hmk, ?_⟩
  simp [adapt_activity_data_to_member, adaptEndCheck, hb1, hb2, hmk, hdisc]

/-! ## Claim C10 -/

/-- C10: with `full_camp = false`, a member eligible at the original
start date but at or above `max_age` two days later is rejected by the
re-check, yet the adapter has already mutated the activity argument in
place: the null result carries the state with the discount division of
`total_price` (when `mem.discount`) applied and the start date shifted
forward by 2 days, so a null result does not imply the passed-in
activity is unchanged. -/
theorem c10_mutation_before_recheck (act : Activity) (mem : Member) (max_age : Int)
    (h1 : is_member_too_old mem.date_of_birth act.start_date max_age = false)
    (h2 : is_member_too_old mem.date_of_birth (pyAddDays act.start_date 2) max_age
      = true) :
    adapt_activity_data_to_member act mem false max_age =
      .ineligible { (if mem.discount
          then { act with total_price := pyRound2 (act.total_price / 3) }
          else act) with
        start_date := pyAddDays act.start_date 2 } := by
  cases hd : mem.discount <;>
    simp [adapt_activity_data_to_member, h1, h2, hd]

def memC10 : Member := ⟨"lid", "cas", ⟨2010, 7, 5⟩, 2016, true⟩

def actC10 : Activity := Activity.make ⟨2024, 7, 4⟩ ⟨2024, 7, 20⟩ 80

theorem c10_witness :
    is_member_too_old memC10.date_of_birth actC10.start_date 14 = false ∧
      is_member_too_old memC10.date_of_birth (pyAddDays actC10.start_date 2) 14
        = true ∧
      adapt_activity_data_to_member actC10 memC10 false 14 =
        .ineligible { (if memC10.discount
            then { actC10 with total_price := pyRound2 (actC10.total_price / 3) }
            else actC10) with
          start_date := pyAddDays actC10.start_date 2 } ∧
      ({ (if memC10.discount
            then { actC10 with total_price := pyRound2 (actC10.total_price / 3) }
            else actC10) with
          start_date := pyAddDays actC10.start_date 2 }).start_date
        ≠ actC10.start_date :=
  ⟨by decide, by decide,
    c10_mutation_before_recheck actC10 memC10 14 (by decide) (by decide),
    by decide⟩

/-! ## Claim C6 -/

/-- C6: whenever the loop body reaches the adapter call (a group `ag`
and flag `fc` were produced), `fc` is false exactly when all three
hold: the activity name contains "kamp" case-insensitively, the
resolved group is one of the two senior groups, and that same group is
also the one resolved from `registration_year - 1`; in every other
case the activity is passed on with `full_camp = true`. -/
theorem c6_full_camp_rule (name : String) (calendar_year : Int)
    (t : AgeGroupData) (reg : Int) (ag : String) (fc : Bool)
    (h : process_activity_name name calendar_year t reg = .ok (ag, fc)) :
    fc = false ↔
      (strContains "kamp" (pyLower name) = true ∧
        (ag = "jonggivers" ∨ ag = "givers") ∧
        determine_age_group t (reg - 1) = .ok (some ag)) := by
  rw [process_activity_name] at h
  split at h
  · exact Except.noConfusion h
  · exact Except.noConfusion h
  · rename_i ag0 hres
    split at h
    · rename_i hcond
      split at h
      · exact Except.noConfusion h
      · rename_i r hdet
        simp only [Except.ok.injEq, Prod.mk.injEq] at h
        obtain ⟨rfl, rfl⟩ := h
        simp only [Bool.and_eq_true, Bool.or_eq_true, beq_iff_eq] at hcond
        obtain ⟨hA, hB⟩ := hcond
        rw [hdet]
        constructor
        · intro hfc
          refine ⟨hA, hB, ?_⟩
          have : (r == some ag0) = true := by
            cases hrb : (r == some ag0) with
            | false => rw [hrb] at hfc; exact Bool.noConfusion hfc
            | true => rfl
          rw [beq_iff_eq] at this
          rw [this]
        · rintro ⟨-, -, hr⟩
          have : r = some ag0 := by
            injection hr
          simp [this]
    · rename_i hcond
      simp only [Except.ok.injEq, Prod.mk.injEq] at h
      obtain ⟨rfl, rfl⟩ := h
      simp only [Bool.true_eq_false, false_iff]
      rintro ⟨hA, hB, -⟩
      apply hcond
      simp only [Bool.and_eq_true, Bool.or_eq_true, beq_iff_eq]
      exact ⟨hA, hB⟩

/-- A built two-group table with the senior group "jonggivers". -/
def tableC6 : AgeGroupData :=
  [("wolven", ⟨4, some 2018⟩), ("jonggivers", ⟨4, some 2014⟩)]

theorem c6_witness :
    process_activity_name "jonggiverkamp 2023/2024" 2024 tableC6 2013 =
        .ok ("jonggivers", false) ∧
      (false = false ↔
        (strContains "kamp" (pyLower "jonggiverkamp 2023/2024") = true ∧
          ("jonggivers" = "jonggivers" ∨ "jonggivers" = "givers") ∧
          determine_age_group tableC6 (2013 - 1) = .ok (some "jonggivers"))) :=
  ⟨by decide,
    c6_full_camp_rule "jonggiverkamp 2023/2024" 2024 tableC6 2013 "jonggivers"
      false (by decide)⟩

end Fiscale
